import Mathlib

/-!
Verification of the PEAR package/channel reconciliation module
(src/packaging/language/pear.py).

The Python source is shallowly embedded below.  Pure string processing
(the output parsing of the two list commands) becomes Lean functions on
strings and character lists; the module protocol (run_command, exit_json,
fail_json) is modelled by an explicit executor function
String -> Int x String x String (command to (rc, stdout, stderr)) and an
outcome type recording how the run terminated.  A Python exception that
escapes (an UnboundLocalError or a NameError) is modelled as a crash
outcome; the Except monad carries the same distinction for the two query
helpers.
-/

namespace Pear

instance instDecEqExcept {ε α : Type} [DecidableEq ε] [DecidableEq α] :
    DecidableEq (Except ε α)
  | Except.error a, Except.error b =>
    if h : a = b then isTrue (congrArg Except.error h)
    else isFalse fun hc => h (Except.error.inj hc)
  | Except.error _, Except.ok _ => isFalse fun hc => Except.noConfusion hc
  | Except.ok _, Except.error _ => isFalse fun hc => Except.noConfusion hc
  | Except.ok a, Except.ok b =>
    if h : a = b then isTrue (congrArg Except.ok h)
    else isFalse fun hc => h (Except.ok.inj hc)

/-- The characters matched by the regex class backslash-s in Python
(ASCII mode suffices for the outputs involved). -/
def isSpaceChar (c : Char) : Bool :=
  c = ' ' || c = '\t' || c = '\n' || c = '\r' || c = '\x0b' || c = '\x0c'

/-- Worker for reSplitWs.  The state is some cur while a piece cur
(reversed) is being accumulated, and none directly after a split point,
while the remaining whitespace of the separating run is being consumed. -/
def reSplitWsAux : List Char → Option (List Char) → List String
  | [], st => [String.mk (st.getD []).reverse]
  | c :: rest, some cur =>
    if isSpaceChar c then String.mk cur.reverse :: reSplitWsAux rest none
    else reSplitWsAux rest (some (c :: cur))
  | c :: rest, none =>
    if isSpaceChar c then reSplitWsAux rest none
    else reSplitWsAux rest (some [c])

/-- Python re.split of a string at maximal whitespace runs with no split
limit: the pieces between the runs, including the empty pieces produced
by a leading or trailing run (source line 91). -/
def reSplitWs (s : String) : List String :=
  reSplitWsAux s.toList (some [])

/-- Worker for reSplitWsMax2, with fuel counting the splits still
allowed.  Once the fuel is exhausted the rest of the string, whitespace
included, belongs to the final piece. -/
def reSplitWsMaxAux : Nat → List Char → Option (List Char) → List String
  | _, [], st => [String.mk (st.getD []).reverse]
  | fuel, c :: rest, some cur =>
    if isSpaceChar c then
      match fuel with
      | 0 => reSplitWsMaxAux 0 rest (some (c :: cur))
      | f + 1 => String.mk cur.reverse :: reSplitWsMaxAux f rest none
    else reSplitWsMaxAux fuel rest (some (c :: cur))
  | fuel, c :: rest, none =>
    if isSpaceChar c then reSplitWsMaxAux fuel rest none
    else reSplitWsMaxAux fuel rest (some [c])

/-- Python re.split at whitespace runs with maxsplit = 2: at most three
pieces, the third kept verbatim (source line 111). -/
def reSplitWsMax2 (s : String) : List String :=
  reSplitWsMaxAux 2 s.toList (some [])

/-- Python str.split of a string on a newline: every piece between
newline characters, including empty ones (source lines 87 and 107). -/
def splitNlAux : List Char → List Char → List String
  | [], cur => [String.mk cur.reverse]
  | c :: rest, cur =>
    if c = '\n' then String.mk cur.reverse :: splitNlAux rest []
    else splitNlAux rest (c :: cur)

/-- Python out.split("\n"). -/
def splitNl (s : String) : List String :=
  splitNlAux s.toList []

/-- Whether needle occurs as a contiguous sublist of the second list. -/
def subList (needle : List Char) : List Char → Bool
  | [] => needle.isEmpty
  | hay@(_ :: rest) => needle.isPrefixOf hay || subList needle rest

/-- The Python substring test: needle in hay. -/
def strContains (hay needle : String) : Bool :=
  subList needle.toList hay.toList

/-- The unpacking on source line 91: a package line yields its first two
fields when the whitespace split gives exactly three, and none
otherwise (in which case the Python ValueError is swallowed and the
loop variables keep their previous values). -/
def parse3 (line : String) : Option (String × String) :=
  match reSplitWs line with
  | [a, b, _c] => some (a, b)
  | _ => none

/-- The unpacking on source line 111: a channel line yields its first
field when the maxsplit-2 whitespace split gives exactly three pieces,
and none otherwise. -/
def parseChan3 (line : String) : Option String :=
  match reSplitWsMax2 line with
  | [u, _a, _d] => some u
  | _ => none

/-- The loop-variable update of one iteration: a well-formed line
overwrites the (pkg_name, pkg_version) pair, a malformed one leaves the
previous pair (unbound when no line was well-formed yet) in place. -/
def nextSt (st : Option (String × String)) (line : String) :
    Option (String × String) :=
  match parse3 line with
  | some ab => some ab
  | none => st

/-- The loop of _is_package_present (source lines 89..98) over the
post-header lines.  The state is the current value of the loop
variables, none while they are still unbound; testing unbound variables
raises, which is the error result. -/
def pkgLoop (name : String) (version : Option String) :
    List String → Option (String × String) → Except Unit Bool
  | [], _ => Except.ok false
  | line :: rest, st =>
    match nextSt st line with
    | none => Except.error ()
    | some pnv =>
      if pnv.1 = name ∧ (version = none ∨ version = some pnv.2) then Except.ok true
      else pkgLoop name version rest (some pnv)

/-- _is_package_present applied to the captured stdout of pear list:
drop the three header lines, then scan (source lines 87..98).  The
error value models the UnboundLocalError escaping the function. -/
def is_package_present (name : String) (version : Option String) (out : String) :
    Except Unit Bool :=
  pkgLoop name version ((splitNl out).drop 3) none

/-- The loop-variable update of one channel iteration. -/
def chanNext (st : Option String) (line : String) : Option String :=
  match parseChan3 line with
  | some u => some u
  | none => st

/-- The loop of _is_channel_present (source lines 109..118). -/
def chanLoop (name : String) : List String → Option String → Except Unit Bool
  | [], _ => Except.ok false
  | line :: rest, st =>
    match chanNext st line with
    | none => Except.error ()
    | some url =>
      if url = name then Except.ok true
      else chanLoop name rest (some url)

/-- _is_channel_present applied to the captured stdout of
pear list-channels (source lines 107..118). -/
def is_channel_present (name : String) (out : String) : Except Unit Bool :=
  chanLoop name ((splitNl out).drop 3) none

/-- The validated state parameter: the argument spec restricts it to the
choices present and absent, with default present. -/
inductive PState
  | present
  | absent
deriving DecidableEq, Repr

/-- package_state_map (source lines 132..135). -/
def packageStateMap : PState → String
  | PState.present => "install"
  | PState.absent => "uninstall"

/-- channel_state_map (source lines 137..140). -/
def channelStateMap : PState → String
  | PState.present => "channel-discover"
  | PState.absent => "channel-delete"

/-- _get_full_name (source lines 74..79). -/
def get_full_name (name : String) (version : Option String) : String :=
  match version with
  | none => name
  | some v => name ++ "-" ++ v

/-- Python truthiness of an optional string parameter, as tested by
"if name:" and "elif channel:". -/
def truthy : Option String → Bool
  | none => false
  | some s => s != ""

/-- The message built by _fail (source lines 120..128): segments for
stdout, stderr and the return code, each skipped when its value is
falsy.  Note the stray colon that the source puts in front of the
stderr label. -/
def failMsg (out err : String) (rc : Option Int) : String :=
  let m := ""
  let m := if out ≠ "" then m ++ "stdout: " ++ out else m
  let m := if err ≠ "" then m ++ "\n:stderr: " ++ err else m
  match rc with
  | some r => if r ≠ 0 then m ++ "\nrc: " ++ toString r else m
  | none => m

/-- How a run of main terminates: exit_json with a changed flag,
fail_json with its optional cmd and msg fields, or an uncaught Python
exception (referencing an unbound variable). -/
inductive RunOutcome
  | exited (changed : Bool)
  | failed (cmd : Option String) (msg : Option String)
  | crashed
deriving DecidableEq, Repr

/-- The validated module parameters. -/
structure Params where
  state : PState
  name : Option String
  version : Option String
  channel : Option String

/-- The predicted changed flag of a check-mode run (source lines 172 and
176): present and not installed, or absent and installed. -/
def checkChanged (state : PState) (is_present : Bool) : Bool :=
  (decide (state = PState.present) && !is_present) ||
    (decide (state = PState.absent) && is_present)

/-- The changed flag of a package action (source lines 196..199):
uninstall ok in the output when absent, install ok when present. -/
def pkgChangedFlag (state : PState) (out_pear : String) : Bool :=
  if state = PState.absent then strContains out_pear "uninstall ok"
  else strContains out_pear "install ok"

/-- Outcome classification of a package action (source lines 188..199):
two tolerated no-op shapes, then _fail on any other non-zero exit,
otherwise exit_json with the substring-derived changed flag. -/
def packageClassify (state : PState) (cmd out_pear err_pear : String) (rc : Int) :
    RunOutcome :=
  if rc = 0 ∧ state = PState.absent ∧ strContains out_pear "not installed" then
    RunOutcome.exited (pkgChangedFlag state out_pear)
  else if rc = 1 ∧ state = PState.present ∧ strContains out_pear "already installed" then
    RunOutcome.exited (pkgChangedFlag state out_pear)
  else if rc ≠ 0 then
    RunOutcome.failed (some cmd) (some (failMsg out_pear err_pear none))
  else
    RunOutcome.exited (pkgChangedFlag state out_pear)

/-- Outcome classification of a channel action (source lines 200..213):
two tolerated rc-1 no-ops, two rc-0 success markers, _fail with the
return code on any other rc 1; any remaining combination leaves the
changed variable unset, so the final exit_json raises. -/
def channelClassify (state : PState) (cmd out_pear err_pear : String) (rc : Int) :
    RunOutcome :=
  if rc = 1 ∧ state = PState.present ∧ strContains out_pear "is already initialized" then
    RunOutcome.exited false
  else if rc = 1 ∧ state = PState.absent ∧ strContains out_pear "does not exist" then
    RunOutcome.exited false
  else if rc = 0 ∧ state = PState.present ∧ strContains out_pear "succeeded" then
    RunOutcome.exited true
  else if rc = 0 ∧ state = PState.absent ∧ strContains out_pear "deleted" then
    RunOutcome.exited true
  else if rc = 1 then
    RunOutcome.failed (some cmd) (some (failMsg out_pear err_pear (some rc)))
  else
    RunOutcome.crashed

/-- The package-target part of main, both check mode (source lines
170..173) and real mode (source lines 179..199).  The second component
collects the commands handed to run_command, in order. -/
def runMainPackage (checkMode : Bool) (state : PState) (name : String)
    (version : Option String) (ex : String → Int × String × String) :
    RunOutcome × List String :=
  let cmd := "pear " ++ packageStateMap state ++ " " ++ get_full_name name version
  if checkMode then
    let q := ex "pear list"
    if q.1 ≠ 0 then (RunOutcome.failed none none, ["pear list"])
    else
      match is_package_present name version q.2.1 with
      | Except.error _ => (RunOutcome.crashed, ["pear list"])
      | Except.ok b => (RunOutcome.exited (checkChanged state b), ["pear list"])
  else
    let q := ex "pear list"
    if q.1 ≠ 0 then (RunOutcome.failed none none, ["pear list"])
    else
      match is_package_present name version q.2.1 with
      | Except.error _ => (RunOutcome.crashed, ["pear list"])
      | Except.ok b =>
        if (state = PState.present ∧ b = true) ∨ (state = PState.absent ∧ b = false) then
          (RunOutcome.exited false, ["pear list"])
        else
          let r := ex cmd
          (packageClassify state cmd r.2.1 r.2.2 r.1, ["pear list", cmd])

/-- The channel-target part of main: check mode queries and predicts
(source lines 174..177); real mode runs the command with no presence
pre-check (source lines 184, 200..213). -/
def runMainChannel (checkMode : Bool) (state : PState) (channel : String)
    (ex : String → Int × String × String) : RunOutcome × List String :=
  let cmd := "pear " ++ channelStateMap state ++ " " ++ channel
  if checkMode then
    let q := ex "pear list-channels"
    if q.1 ≠ 0 then (RunOutcome.failed none none, ["pear list-channels"])
    else
      match is_channel_present channel q.2.1 with
      | Except.error _ => (RunOutcome.crashed, ["pear list-channels"])
      | Except.ok b => (RunOutcome.exited (checkChanged state b), ["pear list-channels"])
  else
    let r := ex cmd
    (channelClassify state cmd r.2.1 r.2.2 r.1, [cmd])

/-- main (source lines 131..213): dispatch on the truthiness of name and
channel, or fail with the not-enough-parameters message. -/
def runMain (checkMode : Bool) (p : Params) (ex : String → Int × String × String) :
    RunOutcome × List String :=
  if truthy p.name then
    runMainPackage checkMode p.state (p.name.getD "") p.version ex
  else if truthy p.channel then
    runMainChannel checkMode p.state (p.channel.getD "") ex
  else
    (RunOutcome.failed none (some "not enough parameters"), [])

end Pear

namespace Pear

example : reSplitWs "Log 1.2 stable" = ["Log", "1.2", "stable"] := by decide

example : reSplitWs "" = [""] := by decide

example : reSplitWs " a  b " = ["", "a", "b", ""] := by decide

example : reSplitWsMax2 "a b c d" = ["a", "b", "c d"] := by decide

example : splitNl "a\nb\n" = ["a", "b", ""] := by decide

example : strContains "install ok: Log" "install ok" = true := by decide

example : strContains "abc" "abd" = false := by decide

example : is_package_present "Log" none "h1\nh2\nh3\nLog 1.2 stable" =
    Except.ok true := by decide

example : is_package_present "Log" (some "1.3") "h1\nh2\nh3\nLog 1.2 stable" =
    Except.ok false := by decide

example : is_package_present "Log" none "h1\nh2\nh3\n\nLog 1.2 stable" =
    Except.error () := by decide

example : is_channel_present "pear.php.net"
    "h1\nh2\nh3\npear.php.net pear PHP repository" = Except.ok true := by decide

example :
    runMain false ⟨PState.present, some "Log", none, none⟩
      (fun c => if c = "pear list" then (0, "h\nh\nh", "")
                else (0, "install ok: channel://pear.php.net/Log-1.13.3", "")) =
    (RunOutcome.exited true, ["pear list", "pear install Log"]) := by decide

example :
    runMain false ⟨PState.present, some "Log", none, none⟩
      (fun _ => (0, "h\nh\nh\nLog 1.2 stable", "")) =
    (RunOutcome.exited false, ["pear list"]) := by decide

example :
    runMain true ⟨PState.absent, none, none, some "pear.php.net"⟩
      (fun _ => (0, "h\nh\nh\npear.php.net pear PHP repository", "")) =
    (RunOutcome.exited true, ["pear list-channels"]) := by decide

example :
    runMain false ⟨PState.present, none, none, some "pear.php.net"⟩
      (fun _ => (0, "Discovering channel pear.php.net over http:// failed", "")) =
    (RunOutcome.crashed, ["pear channel-discover pear.php.net"]) := by decide

example : failMsg "OUT" "ERR" (some 1) = "stdout: OUT\n:stderr: ERR\nrc: 1" := by decide

example : failMsg "" "ERR" none = "\n:stderr: ERR" := by decide

/-- Dispatch of main on a truthy name parameter. -/
lemma runMain_package (checkMode : Bool) (state : PState) (name : String)
    (version : Option String) (ex : String → Int × String × String)
    (h : name ≠ "") :
    runMain checkMode ⟨state, some name, version, none⟩ ex =
      runMainPackage checkMode state name version ex := by
  simp [runMain, truthy, h]

/-- Dispatch of main on a truthy channel parameter (name defaulted). -/
lemma runMain_channel (checkMode : Bool) (state : PState) (channel : String)
    (ex : String → Int × String × String) (h : channel ≠ "") :
    runMain checkMode ⟨state, none, none, some channel⟩ ex =
      runMainChannel checkMode state channel ex := by
  simp [runMain, truthy, h]

/-- A line carries the fields (a, b) exactly when the whitespace split
gives exactly three fields headed by a and b. -/
lemma parse3_eq_some (line : String) (a b : String) :
    parse3 line = some (a, b) ↔ ∃ c, reSplitWs line = [a, b, c] := by
  unfold parse3
  rcases h : reSplitWs line with _ | ⟨x, _ | ⟨y, _ | ⟨z, _ | ⟨w, t⟩⟩⟩⟩ <;>
    simp_all

/-- The per-line match predicate of the specification, restated through
parse3. -/
lemma line_match_iff (name : String) (version : Option String) (line : String) :
    (∃ a b c, reSplitWs line = [a, b, c] ∧ a = name ∧
        (version = none ∨ version = some b)) ↔
      (∃ b, parse3 line = some (name, b) ∧ (version = none ∨ version = some b)) := by
  constructor
  · rintro ⟨a, b, c, h, rfl, hv⟩
    exact ⟨b, (parse3_eq_some line a b).mpr ⟨c, h⟩, hv⟩
  · rintro ⟨b, h, hv⟩
    obtain ⟨c, hc⟩ := (parse3_eq_some line name b).mp h
    exact ⟨name, b, c, hc, rfl, hv⟩

/-- Once the loop variables hold a pair that does not match, the scan
returns true exactly when a later line carries a matching pair, and it
can no longer raise. -/
lemma pkgLoop_stale (name : String) (version : Option String) (lines : List String) :
    ∀ pn pv, ¬(pn = name ∧ (version = none ∨ version = some pv)) →
      (pkgLoop name version lines (some (pn, pv)) = Except.ok true ↔
        ∃ line ∈ lines, ∃ b, parse3 line = some (name, b) ∧
          (version = none ∨ version = some b)) := by
  induction lines with
  | nil =>
    intro pn pv _
    simp [pkgLoop]
  | cons l rest ih =>
    intro pn pv h
    cases hp : parse3 l with
    | none =>
      rw [show pkgLoop name version (l :: rest) (some (pn, pv)) =
            (if pn = name ∧ (version = none ∨ version = some pv) then Except.ok true
             else pkgLoop name version rest (some (pn, pv)))
          from by simp [pkgLoop, nextSt, hp]]
      rw [if_neg h, ih pn pv h]
      constructor
      · rintro ⟨line, hmem, hx⟩
        exact ⟨line, List.mem_cons_of_mem _ hmem, hx⟩
      · rintro ⟨line, hmem, hx⟩
        rcases List.mem_cons.mp hmem with rfl | hmem2
        · obtain ⟨b, hb, _⟩ := hx
          rw [hp] at hb
          exact absurd hb (by simp)
        · exact ⟨line, hmem2, hx⟩
    | some ab =>
      obtain ⟨a, b⟩ := ab
      rw [show pkgLoop name version (l :: rest) (some (pn, pv)) =
            (if a = name ∧ (version = none ∨ version = some b) then Except.ok true
             else pkgLoop name version rest (some (a, b)))
          from by simp [pkgLoop, nextSt, hp]]
      by_cases hm : a = name ∧ (version = none ∨ version = some b)
      · rw [if_pos hm]
        simp only [true_iff, eq_self_iff_true]
        exact ⟨l, List.mem_cons_self l rest, ⟨b, by rw [hp, hm.1], hm.2⟩⟩
      · rw [if_neg hm, ih a b hm]
        constructor
        · rintro ⟨line, hmem, hx⟩
          exact ⟨line, List.mem_cons_of_mem _ hmem, hx⟩
        · rintro ⟨line, hmem, hx⟩
          rcases List.mem_cons.mp hmem with rfl | hmem2
          · obtain ⟨b', hb, hv⟩ := hx
            rw [hp] at hb
            have h1 : a = name := congrArg Prod.fst (Option.some.inj hb)
            have h2 : b = b' := congrArg Prod.snd (Option.some.inj hb)
            subst h1
            subst h2
            exact absurd ⟨rfl, hv⟩ hm
          · exact ⟨line, hmem2, hx⟩

/-- The guard under which the package scan never reads unbound loop
variables: either there is no post-header line at all, or the first one
splits into exactly three fields. -/
def headOk : List String → Bool
  | [] => true
  | l :: _ => (parse3 l).isSome

/-- Claim C1 (amended): provided the query output has no post-header
line, or its first post-header line itself splits into exactly three
whitespace-delimited fields, is_package_present returns true exactly
when some post-header line splits into exactly three fields whose first
field equals the name and, when a version is given, whose second field
equals that version; with a malformed first post-header line the
function instead raises an unbound-variable error. -/
theorem c1_present_iff (name : String) (version : Option String) (out : String)
    (hguard : headOk ((splitNl out).drop 3) = true) :
    is_package_present name version out = Except.ok true ↔
      ∃ line ∈ (splitNl out).drop 3, ∃ a b c, reSplitWs line = [a, b, c] ∧
        a = name ∧ (version = none ∨ version = some b) := by
  unfold is_package_present
  simp only [line_match_iff]
  cases hl : (splitNl out).drop 3 with
  | nil => simp [pkgLoop]
  | cons l rest =>
    rw [hl] at hguard
    cases hp : parse3 l with
    | none => simp [headOk, hp] at hguard
    | some ab =>
      obtain ⟨a, b⟩ := ab
      rw [show pkgLoop name version (l :: rest) none =
            (if a = name ∧ (version = none ∨ version = some b) then Except.ok true
             else pkgLoop name version rest (some (a, b)))
          from by simp [pkgLoop, nextSt, hp]]
      by_cases hm : a = name ∧ (version = none ∨ version = some b)
      · rw [if_pos hm]
        constructor
        · intro _
          exact ⟨l, List.mem_cons_self l rest, ⟨b, by rw [hp, hm.1], hm.2⟩⟩
        · intro _
          rfl
      · rw [if_neg hm, pkgLoop_stale name version rest a b hm]
        constructor
        · rintro ⟨line, hmem, hx⟩
          exact ⟨line, List.mem_cons_of_mem _ hmem, hx⟩
        · rintro ⟨line, hmem, hx⟩
          rcases List.mem_cons.mp hmem with rfl | hmem2
          · obtain ⟨b', hb, hv⟩ := hx
            rw [hp] at hb
            have h1 : a = name := congrArg Prod.fst (Option.some.inj hb)
            have h2 : b = b' := congrArg Prod.snd (Option.some.inj hb)
            subst h1
            subst h2
            exact absurd ⟨rfl, hv⟩ hm
          · exact ⟨line, hmem2, hx⟩

/-- Instance of claim C1 at a concrete query output, the guard
discharged by evaluation. -/
theorem c1_present_iff_witness :
    headOk ((splitNl "h1\nh2\nh3\nLog 1.2 stable").drop 3) = true ∧
    (is_package_present "Log" none "h1\nh2\nh3\nLog 1.2 stable" = Except.ok true ↔
      ∃ line ∈ (splitNl "h1\nh2\nh3\nLog 1.2 stable").drop 3, ∃ a b c,
        reSplitWs line = [a, b, c] ∧ a = "Log" ∧
          ((none : Option String) = none ∨ (none : Option String) = some b)) :=
  ⟨by decide, c1_present_iff "Log" none "h1\nh2\nh3\nLog 1.2 stable" (by decide)⟩

/-- Claim C1 as stated is false on this output: the line Log 1.2 stable
sits after the three header lines and splits into exactly three fields
headed by the queried name, yet the function does not return true — the
blank first post-header line makes it read the still-unbound loop
variables. -/
theorem c1_counterexample :
    ("Log 1.2 stable" ∈ (splitNl "h1\nh2\nh3\n\nLog 1.2 stable").drop 3 ∧
      reSplitWs "Log 1.2 stable" = ["Log", "1.2", "stable"]) ∧
    is_package_present "Log" none "h1\nh2\nh3\n\nLog 1.2 stable" ≠ Except.ok true := by
  decide

/-- Claim C2 fails on the code: a malformed (here blank) first
post-header line is not silently skipped — both scans stop with an
unbound-variable error instead of returning a boolean determined by the
well-formed lines, which in both outputs would have matched. -/
theorem c2_malformed_first_line :
    is_package_present "Log" none "h1\nh2\nh3\n\nLog 1.2 stable" =
      Except.error () ∧
    is_channel_present "pear.php.net"
        "h1\nh2\nh3\n\npear.php.net pear PHP repository" = Except.error () := by
  decide

/-- When the package query succeeds and reports presence equal to the
desired state, the run exits with changed false after only the listing
command, in check mode and in real mode alike. -/
lemma package_precheck_noop (checkMode : Bool) (state : PState) (name : String)
    (version : Option String) (ex : String → Int × String × String)
    (hname : name ≠ "") (hq : (ex "pear list").1 = 0)
    (hpres : is_package_present name version (ex "pear list").2.1 =
      Except.ok (decide (state = PState.present))) :
    runMain checkMode ⟨state, some name, version, none⟩ ex =
      (RunOutcome.exited false, ["pear list"]) := by
  rw [runMain_package checkMode state name version ex hname]
  unfold runMainPackage
  cases checkMode <;> cases state <;>
    simp [hq, hpres, checkChanged]

/-- When the channel query succeeds in check mode and reports presence
equal to the desired state, the run exits with changed false after only
the listing command. -/
lemma channel_precheck_noop (state : PState) (channel : String)
    (ex : String → Int × String × String)
    (hchan : channel ≠ "") (hq : (ex "pear list-channels").1 = 0)
    (hpres : is_channel_present channel (ex "pear list-channels").2.1 =
      Except.ok (decide (state = PState.present))) :
    runMain true ⟨state, none, none, some channel⟩ ex =
      (RunOutcome.exited false, ["pear list-channels"]) := by
  rw [runMain_channel true state channel ex hchan]
  unfold runMainChannel
  cases state <;> simp [hq, hpres, checkChanged]

/-- A channel action exiting 1 with the tolerated marker for its
direction is classified as changed false. -/
lemma channelClassify_rc1_noop (state : PState) (cmd out err : String)
    (hmark : (state = PState.present ∧ strContains out "is already initialized" = true) ∨
      (state = PState.absent ∧ strContains out "does not exist" = true)) :
    channelClassify state cmd out err 1 = RunOutcome.exited false := by
  unfold channelClassify
  rcases hmark with ⟨hs, hm⟩ | ⟨hs, hm⟩
  · rw [if_pos ⟨rfl, hs, hm⟩]
  · rw [if_neg, if_pos ⟨rfl, hs, hm⟩]
    rintro ⟨-, hp, -⟩
    rw [hs] at hp
    exact PState.noConfusion hp

/-- A channel action exiting 1 with neither tolerated marker is
classified as the _fail report carrying the command and the formatted
message with the return code. -/
lemma channelClassify_rc1_fail (state : PState) (cmd out err : String)
    (h1 : ¬(state = PState.present ∧ strContains out "is already initialized" = true))
    (h2 : ¬(state = PState.absent ∧ strContains out "does not exist" = true)) :
    channelClassify state cmd out err 1 =
      RunOutcome.failed (some cmd) (some (failMsg out err (some 1))) := by
  unfold channelClassify
  split_ifs with g1 g2 g3 g4 g5
  · exact absurd ⟨g1.2.1, g1.2.2⟩ h1
  · exact absurd ⟨g2.2.1, g2.2.2⟩ h2
  · exact absurd g3.1 (by decide)
  · exact absurd g4.1 (by decide)
  · rfl
  · exact absurd rfl g5

/-- A channel action exiting 0 with neither success marker falls through
every branch, leaving changed unset: the final exit_json raises. -/
lemma channelClassify_rc0_unset (state : PState) (cmd out err : String)
    (h1 : ¬(state = PState.present ∧ strContains out "succeeded" = true))
    (h2 : ¬(state = PState.absent ∧ strContains out "deleted" = true)) :
    channelClassify state cmd out err 0 = RunOutcome.crashed := by
  unfold channelClassify
  split_ifs with g1 g2 g3 g4 g5
  · exact absurd g1.1 (by decide)
  · exact absurd g2.1 (by decide)
  · exact absurd ⟨g3.2.1, g3.2.2⟩ h1
  · exact absurd ⟨g4.2.1, g4.2.2⟩ h2
  · exact absurd g5 (by decide)
  · rfl

/-- A package action classified as an exit carries the substring-derived
changed flag. -/
lemma packageClassify_exited (state : PState) (cmd out err : String) (rc : Int)
    (c : Bool) (h : packageClassify state cmd out err rc = RunOutcome.exited c) :
    c = pkgChangedFlag state out := by
  unfold packageClassify at h
  split_ifs at h <;> simp_all

/-- Claim C3 as stated is false: in real mode with a channel target
whose presence — as the listing output the executor would return
reports it — already matches the desired present state, the run still
hands the mutating channel-discover command to the executor. -/
theorem c3_counterexample :
    is_channel_present "pear.example.com"
        ((fun c => if c = "pear list-channels"
            then ((0 : Int), "h1\nh2\nh3\npear.example.com ex Example channel", "")
            else ((1 : Int), "Channel pear.example.com is already initialized", ""))
          "pear list-channels").2.1 = Except.ok true ∧
    (runMain false ⟨PState.present, none, none, some "pear.example.com"⟩
        (fun c => if c = "pear list-channels"
            then ((0 : Int), "h1\nh2\nh3\npear.example.com ex Example channel", "")
            else ((1 : Int), "Channel pear.example.com is already initialized", ""))).2 =
      ["pear channel-discover pear.example.com"] := by
  decide

/-- Claim C3 (amended): the short-circuit — changed false and no command
beyond the listing — holds for package targets in real mode and in check
mode whenever the query reports presence matching the desired state,
and for channel targets in check mode; channel targets in real mode
always execute the mutating command. -/
theorem c3_match_noop :
    (∀ (checkMode : Bool) (state : PState) (name : String) (version : Option String)
        (ex : String → Int × String × String), name ≠ "" →
      (ex "pear list").1 = 0 →
      is_package_present name version (ex "pear list").2.1 =
        Except.ok (decide (state = PState.present)) →
      runMain checkMode ⟨state, some name, version, none⟩ ex =
        (RunOutcome.exited false, ["pear list"])) ∧
    (∀ (state : PState) (channel : String) (ex : String → Int × String × String),
      channel ≠ "" →
      (ex "pear list-channels").1 = 0 →
      is_channel_present channel (ex "pear list-channels").2.1 =
        Except.ok (decide (state = PState.present)) →
      runMain true ⟨state, none, none, some channel⟩ ex =
        (RunOutcome.exited false, ["pear list-channels"])) :=
  ⟨fun checkMode state name version ex hname hq hpres =>
      package_precheck_noop checkMode state name version ex hname hq hpres,
    fun state channel ex hchan hq hpres =>
      channel_precheck_noop state channel ex hchan hq hpres⟩

/-- Instance of claim C3 at concrete inputs: package Log already
installed, desired present, real mode — changed false, only the listing
command executed. -/
theorem c3_match_noop_witness :
    ("Log" : String) ≠ "" ∧
    ((fun _ : String => ((0 : Int), "h1\nh2\nh3\nLog 1.2 stable", "")) "pear list").1 = 0 ∧
    runMain false ⟨PState.present, some "Log", none, none⟩
        (fun _ => ((0 : Int), "h1\nh2\nh3\nLog 1.2 stable", "")) =
      (RunOutcome.exited false, ["pear list"]) :=
  ⟨by decide, by decide,
    c3_match_noop.1 false PState.present "Log" none
      (fun _ => ((0 : Int), "h1\nh2\nh3\nLog 1.2 stable", "")) (by decide) (by decide)
      (by decide)⟩

/-- Claim C4: in check mode the trace is exactly the one listing command
for either target and either desired state — the mutating command is
never handed to the executor — and when the listing succeeds and
parses, the run exits with the predicted flag: changed true exactly
when current presence differs from the desired state. -/
theorem c4_dry_run :
    (∀ (state : PState) (name : String) (version : Option String)
        (ex : String → Int × String × String), name ≠ "" →
      (runMain true ⟨state, some name, version, none⟩ ex).2 = ["pear list"] ∧
      ∀ b : Bool, (ex "pear list").1 = 0 →
        is_package_present name version (ex "pear list").2.1 = Except.ok b →
        runMain true ⟨state, some name, version, none⟩ ex =
          (RunOutcome.exited (checkChanged state b), ["pear list"])) ∧
    (∀ (state : PState) (channel : String) (ex : String → Int × String × String),
      channel ≠ "" →
      (runMain true ⟨state, none, none, some channel⟩ ex).2 = ["pear list-channels"] ∧
      ∀ b : Bool, (ex "pear list-channels").1 = 0 →
        is_channel_present channel (ex "pear list-channels").2.1 = Except.ok b →
        runMain true ⟨state, none, none, some channel⟩ ex =
          (RunOutcome.exited (checkChanged state b), ["pear list-channels"])) := by
  constructor
  · intro state name version ex hname
    rw [runMain_package true state name version ex hname]
    unfold runMainPackage
    constructor
    · by_cases h0 : (ex "pear list").1 ≠ 0
      · simp [h0]
      · rw [if_neg h0]
        cases hres : is_package_present name version (ex "pear list").2.1 <;> simp
    · intro b hq hpres
      simp [hq, hpres]
  · intro state channel ex hchan
    rw [runMain_channel true state channel ex hchan]
    unfold runMainChannel
    constructor
    · by_cases h0 : (ex "pear list-channels").1 ≠ 0
      · simp [h0]
      · rw [if_neg h0]
        cases hres : is_channel_present channel (ex "pear list-channels").2.1 <;> simp
    · intro b hq hpres
      simp [hq, hpres]

/-- Instance of claim C4 at concrete inputs: desired present, package
not installed — predicted changed true, only the listing executed. -/
theorem c4_dry_run_witness :
    ("Log" : String) ≠ "" ∧
    ((fun _ : String => ((0 : Int), "h1\nh2\nh3", "")) "pear list").1 = 0 ∧
    runMain true ⟨PState.present, some "Log", none, none⟩
        (fun _ => ((0 : Int), "h1\nh2\nh3", "")) =
      (RunOutcome.exited (checkChanged PState.present false), ["pear list"]) :=
  ⟨by decide, by decide,
    (c4_dry_run.1 PState.present "Log" none
        (fun _ => ((0 : Int), "h1\nh2\nh3", "")) (by decide)).2 false (by decide)
      (by decide)⟩

/-- Claim C5: a package action that completes without a fail report has
changed true exactly when the action output contains uninstall ok
(desired absent) or install ok (desired present); otherwise changed is
false even though the command succeeded. -/
theorem c5_package_changed_iff (state : PState) (name : String)
    (version : Option String) (ex : String → Int × String × String) (c : Bool)
    (hname : name ≠ "")
    (hq : (ex "pear list").1 = 0)
    (hpres : is_package_present name version (ex "pear list").2.1 =
      Except.ok (decide (state = PState.absent)))
    (hdone : (runMain false ⟨state, some name, version, none⟩ ex).1 =
      RunOutcome.exited c) :
    c = (if state = PState.absent
      then strContains (ex ("pear " ++ packageStateMap state ++ " " ++
        get_full_name name version)).2.1 "uninstall ok"
      else strContains (ex ("pear " ++ packageStateMap state ++ " " ++
        get_full_name name version)).2.1 "install ok") := by
  rw [runMain_package false state name version ex hname] at hdone
  unfold runMainPackage at hdone
  cases state <;>
    simp only [hq, hpres] at hdone <;>
    simp at hdone <;>
    [exact (packageClassify_exited PState.present _ _ _ _ c hdone).trans rfl;
     exact (packageClassify_exited PState.absent _ _ _ _ c hdone).trans rfl]

/-- Instance of claim C5 at concrete inputs: installing Log succeeds
with install ok in the output, so changed is true. -/
theorem c5_package_changed_iff_witness :
    ("Log" : String) ≠ "" ∧
    ((fun c : String => if c = "pear list" then ((0 : Int), "h1\nh2\nh3", "")
        else ((0 : Int), "install ok: Log", "")) "pear list").1 = 0 ∧
    (true : Bool) = (if PState.present = PState.absent
      then strContains ((fun c : String => if c = "pear list"
          then ((0 : Int), "h1\nh2\nh3", "")
          else ((0 : Int), "install ok: Log", ""))
        ("pear " ++ packageStateMap PState.present ++ " " ++
          get_full_name "Log" none)).2.1 "uninstall ok"
      else strContains ((fun c : String => if c = "pear list"
          then ((0 : Int), "h1\nh2\nh3", "")
          else ((0 : Int), "install ok: Log", ""))
        ("pear " ++ packageStateMap PState.present ++ " " ++
          get_full_name "Log" none)).2.1 "install ok") :=
  ⟨by decide, by decide,
    c5_package_changed_iff PState.present "Log" none
      (fun c => if c = "pear list" then ((0 : Int), "h1\nh2\nh3", "")
        else ((0 : Int), "install ok: Log", "")) true (by decide) (by decide)
      (by decide) (by decide)⟩

/-- Claim C6: a package action ends in the _fail report — carrying the
command and the message built from the captured stdout and stderr —
exactly when the exit code is non-zero and the outcome is neither
tolerated no-op: exit 0 with not installed while absent, exit 1 with
already installed while present. -/
theorem c6_package_error_iff (state : PState) (cmd out err : String) (rc : Int) :
    packageClassify state cmd out err rc =
        RunOutcome.failed (some cmd) (some (failMsg out err none)) ↔
      (rc ≠ 0 ∧
        ¬(rc = 0 ∧ state = PState.absent ∧ strContains out "not installed" = true) ∧
        ¬(rc = 1 ∧ state = PState.present ∧ strContains out "already installed" = true)) := by
  unfold packageClassify
  split_ifs with h1 h2 h3 <;> simp_all

/-- Claim C7 as stated is false: at this failing channel action the
message labels the stderr segment with a stray leading colon
(:stderr:), so the message is not the output concatenated with the
prefixes stdout:, stderr: and rc:. -/
theorem c7_counterexample :
    runMain false ⟨PState.present, none, none, some "pear.example.com"⟩
        (fun _ => ((1 : Int), "boom", "err!")) =
      (RunOutcome.failed (some "pear channel-discover pear.example.com")
        (some "stdout: boom\n:stderr: err!\nrc: 1"),
       ["pear channel-discover pear.example.com"]) ∧
    "stdout: boom\n:stderr: err!\nrc: 1" ≠ "stdout: boom\nstderr: err!\nrc: 1" := by
  decide

/-- Claim C7 (amended): a channel action exiting 1 whose output matches
neither tolerated pattern ends in a fail report carrying the command
and the _fail message: a stdout segment prefixed stdout:, a stderr
segment prefixed :stderr: (the source writes a stray colon before the
label), and an rc segment prefixed rc: with the return code, each
segment omitted when its value is empty. -/
theorem c7_channel_error_report (state : PState) (channel out err : String)
    (ex : String → Int × String × String)
    (hchan : channel ≠ "")
    (hex : ex ("pear " ++ channelStateMap state ++ " " ++ channel) = (1, out, err))
    (h1 : ¬(state = PState.present ∧ strContains out "is already initialized" = true))
    (h2 : ¬(state = PState.absent ∧ strContains out "does not exist" = true)) :
    runMain false ⟨state, none, none, some channel⟩ ex =
      (RunOutcome.failed (some ("pear " ++ channelStateMap state ++ " " ++ channel))
        (some (failMsg out err (some 1))),
       ["pear " ++ channelStateMap state ++ " " ++ channel]) := by
  rw [runMain_channel false state channel ex hchan]
  have hcl := channelClassify_rc1_fail state
    ("pear " ++ channelStateMap state ++ " " ++ channel) out err h1 h2
  simp [runMainChannel, hex, hcl]

/-- Instance of claim C7 at concrete inputs. -/
theorem c7_channel_error_report_witness :
    ("pear.test" : String) ≠ "" ∧
    (fun _ : String => ((1 : Int), "boom", "err!"))
        ("pear " ++ channelStateMap PState.present ++ " " ++ "pear.test") =
      (1, "boom", "err!") ∧
    runMain false ⟨PState.present, none, none, some "pear.test"⟩
        (fun _ => ((1 : Int), "boom", "err!")) =
      (RunOutcome.failed
        (some ("pear " ++ channelStateMap PState.present ++ " " ++ "pear.test"))
        (some (failMsg "boom" "err!" (some 1))),
       ["pear " ++ channelStateMap PState.present ++ " " ++ "pear.test"]) :=
  ⟨by decide, by decide,
    c7_channel_error_report PState.present "pear.test" "boom" "err!"
      (fun _ => ((1 : Int), "boom", "err!")) (by decide) (by decide) (by decide)
      (by decide)⟩

/-- Claim C8: a real-mode channel action exiting 0 whose output contains
neither succeeded (desired present) nor deleted (desired absent) leaves
the changed variable unset, and the final report step crashes on the
unset variable instead of producing a result record. -/
theorem c8_unset_changed (state : PState) (channel out err : String)
    (ex : String → Int × String × String)
    (hchan : channel ≠ "")
    (hex : ex ("pear " ++ channelStateMap state ++ " " ++ channel) = (0, out, err))
    (h1 : ¬(state = PState.present ∧ strContains out "succeeded" = true))
    (h2 : ¬(state = PState.absent ∧ strContains out "deleted" = true)) :
    runMain false ⟨state, none, none, some channel⟩ ex =
      (RunOutcome.crashed, ["pear " ++ channelStateMap state ++ " " ++ channel]) := by
  rw [runMain_channel false state channel ex hchan]
  have hcl := channelClassify_rc0_unset state
    ("pear " ++ channelStateMap state ++ " " ++ channel) out err h1 h2
  simp [runMainChannel, hex, hcl]

/-- Instance of claim C8 at concrete inputs. -/
theorem c8_unset_changed_witness :
    ("pear.test" : String) ≠ "" ∧
    (fun _ : String => ((0 : Int), "ok", ""))
        ("pear " ++ channelStateMap PState.present ++ " " ++ "pear.test") =
      (0, "ok", "") ∧
    runMain false ⟨PState.present, none, none, some "pear.test"⟩
        (fun _ => ((0 : Int), "ok", "")) =
      (RunOutcome.crashed,
       ["pear " ++ channelStateMap PState.present ++ " " ++ "pear.test"]) :=
  ⟨by decide, by decide,
    c8_unset_changed PState.present "pear.test" "ok" ""
      (fun _ => ((0 : Int), "ok", "")) (by decide) (by decide) (by decide)
      (by decide)⟩

/-- Claim C9: on a second run with the same desired state, against an
executor consistent with the host state the tool reports after the
first run — the package listing now reports presence equal to the
desired state; an already-known channel answers channel-discover with
exit 1 and is already initialized; a gone channel answers
channel-delete with exit 1 and does not exist — the run reports changed
false: packages through the presence pre-check, channels through the
tolerated outcomes. -/
theorem c9_idempotent_second_run :
    (∀ (state : PState) (name : String) (version : Option String)
        (ex2 : String → Int × String × String), name ≠ "" →
      (ex2 "pear list").1 = 0 →
      is_package_present name version (ex2 "pear list").2.1 =
        Except.ok (decide (state = PState.present)) →
      (runMain false ⟨state, some name, version, none⟩ ex2).1 =
        RunOutcome.exited false) ∧
    (∀ (channel out err : String) (ex2 : String → Int × String × String),
      channel ≠ "" →
      ex2 ("pear " ++ channelStateMap PState.present ++ " " ++ channel) =
        (1, out, err) →
      strContains out "is already initialized" = true →
      (runMain false ⟨PState.present, none, none, some channel⟩ ex2).1 =
        RunOutcome.exited false) ∧
    (∀ (channel out err : String) (ex2 : String → Int × String × String),
      channel ≠ "" →
      ex2 ("pear " ++ channelStateMap PState.absent ++ " " ++ channel) =
        (1, out, err) →
      strContains out "does not exist" = true →
      (runMain false ⟨PState.absent, none, none, some channel⟩ ex2).1 =
        RunOutcome.exited false) := by
  refine ⟨?_, ?_, ?_⟩
  · intro state name version ex2 hname hq hpres
    rw [package_precheck_noop false state name version ex2 hname hq hpres]
  · intro channel out err ex2 hchan hex hmark
    rw [runMain_channel false PState.present channel ex2 hchan]
    have hcl := channelClassify_rc1_noop PState.present
      ("pear " ++ channelStateMap PState.present ++ " " ++ channel) out err
      (Or.inl ⟨rfl, hmark⟩)
    simp [runMainChannel, hex, hcl]
  · intro channel out err ex2 hchan hex hmark
    rw [runMain_channel false PState.absent channel ex2 hchan]
    have hcl := channelClassify_rc1_noop PState.absent
      ("pear " ++ channelStateMap PState.absent ++ " " ++ channel) out err
      (Or.inr ⟨rfl, hmark⟩)
    simp [runMainChannel, hex, hcl]

/-- Instance of claim C9 at concrete inputs: second install run of an
already-installed package reports changed false. -/
theorem c9_idempotent_second_run_witness :
    ("Log" : String) ≠ "" ∧
    ((fun _ : String => ((0 : Int), "h1\nh2\nh3\nLog 1.2 stable", "")) "pear list").1 = 0 ∧
    (runMain false ⟨PState.present, some "Log", none, none⟩
        (fun _ => ((0 : Int), "h1\nh2\nh3\nLog 1.2 stable", ""))).1 =
      RunOutcome.exited false :=
  ⟨by decide, by decide,
    c9_idempotent_second_run.1 PState.present "Log" none
      (fun _ => ((0 : Int), "h1\nh2\nh3\nLog 1.2 stable", "")) (by decide) (by decide)
      (by decide)⟩

/-- Claim C10: whenever a listing command exits non-zero the run stops
with a fail_json call carrying no fields at all — no command, no
message, none of the captured output — in every path that performs a
query: package target in either mode, channel target in check mode. -/
theorem c10_query_failure_bare :
    (∀ (checkMode : Bool) (state : PState) (name : String) (version : Option String)
        (ex : String → Int × String × String), name ≠ "" →
      (ex "pear list").1 ≠ 0 →
      runMain checkMode ⟨state, some name, version, none⟩ ex =
        (RunOutcome.failed none none, ["pear list"])) ∧
    (∀ (state : PState) (channel : String) (ex : String → Int × String × String),
      channel ≠ "" →
      (ex "pear list-channels").1 ≠ 0 →
      runMain true ⟨state, none, none, some channel⟩ ex =
        (RunOutcome.failed none none, ["pear list-channels"])) := by
  constructor
  · intro checkMode state name version ex hname hrc
    rw [runMain_package checkMode state name version ex hname]
    unfold runMainPackage
    cases checkMode <;> simp [hrc]
  · intro state channel ex hchan hrc
    rw [runMain_channel true state channel ex hchan]
    unfold runMainChannel
    simp [hrc]

/-- Instance of claim C10 at concrete inputs: pear list exits 2, the run
fails with a bare report. -/
theorem c10_query_failure_bare_witness :
    ("Log" : String) ≠ "" ∧
    ((fun _ : String => ((2 : Int), "", "cannot list")) "pear list").1 ≠ 0 ∧
    runMain false ⟨PState.present, some "Log", none, none⟩
        (fun _ => ((2 : Int), "", "cannot list")) =
      (RunOutcome.failed none none, ["pear list"]) :=
  ⟨by decide, by decide,
    c10_query_failure_bare.1 false PState.present "Log" none
      (fun _ => ((2 : Int), "", "cannot list")) (by decide) (by decide)⟩

end Pear
